import Mathlib

/-!
Shallow embedding of the offOrder order-management backend
(YogiboKorea/offOrder).  The repository contains several server variants
(src/index.js holds three concatenated revisions; src/unnamed/part_000,
part_001, part_002 hold further revisions).  Each definition below embeds one
concrete route handler or helper function, named after its variant:

* `...V1` — the first revision in src/index.js (lines 1-343)
* `...V2` — the second revision in src/index.js (lines 343-523)
* `...V3` — the third revision in src/index.js (lines 523-1029), which is
  textually the same as src/unnamed/part_002 for the routes modelled here
* `...P0` — src/unnamed/part_000 (first segment, lines 1-570) where it differs
* `...P1` — src/unnamed/part_001

MongoDB documents are schemaless; absent-or-null fields are modelled as
`none`.  JavaScript truthiness coercions (`x || d`, `Number(x) || 0`) are
modelled by the `js...` helpers.  Upstream HTTP traffic is modelled as a
script (list) of responses, each list element being one upstream attempt.
-/

set_option maxRecDepth 4000

/-- A JavaScript value that may be a number or a string, as found in request
bodies for amount fields (`total_amount`, `shipping_cost`, item prices). -/
inductive NumLike where
  | num (n : Int)
  | str (s : String)
deriving DecidableEq

/-- Decimal parse of a character list: all-digits and non-empty, else NaN
(`none`). -/
def parseDigits (l : List Char) : Option Nat :=
  match l with
  | [] => none
  | _ =>
    if l.all Char.isDigit then
      some (l.foldl (fun acc c => acc * 10 + (c.toNat - 48)) 0)
    else none

/-- JavaScript `Number(x)` on the modelled values: a number is itself, a plain
digit string parses, anything else (for example a comma-grouped string) is NaN,
modelled as `none`. -/
def jsNumber : NumLike → Option Int
  | NumLike.num n => some n
  | NumLike.str s => (parseDigits s.data).map (fun n => (n : Int))

/-- JavaScript `Number(x) || d`: NaN, absent and zero all fall back to `d`. -/
def jsNumOr (v : Option NumLike) (d : Int) : Int :=
  match v with
  | none => d
  | some a =>
    match jsNumber a with
    | some n => if n = 0 then d else n
    | none => d

/-- JavaScript `x || d` for strings: absent and empty fall back to `d`. -/
def jsStrOr (v : Option String) (d : String) : String :=
  match v with
  | none => d
  | some s => if s = "" then d else s

/-- An order line item as stored in the documents; every field may be absent
(the DB is schemaless and several variants store items unnormalized). -/
structure RawItem where
  product_no : Option Int
  product_name : Option String
  option_name : Option String
  price : Option NumLike
  quantity : Option NumLike
deriving DecidableEq

/-- Item normalization used by the part_001 update route (lines 363-371):
`product_no || null`, `product_name || ''`, `option_name || ''`,
`Number(price) || 0`, `Number(quantity) || 1`. -/
def normItem (r : RawItem) : RawItem :=
  { product_no := match r.product_no with
      | some n => if n = 0 then none else some n
      | none => none
    product_name := some (jsStrOr r.product_name "")
    option_name := some (jsStrOr r.option_name "")
    price := some (NumLike.num (jsNumOr r.price 0))
    quantity := some (NumLike.num (jsNumOr r.quantity 1)) }

/-- An order document in the `ordersOffData` collection.  `none` means the
field is absent or null in the document. -/
structure Order where
  _id : String
  store_name : Option String
  manager_name : Option String
  customer_name : Option String
  customer_phone : Option String
  address : Option String
  product_name : Option String
  option_name : Option String
  total_amount : Option Int
  shipping_cost : Option Int
  items : List RawItem
  is_synced : Option Bool
  is_deleted : Option Bool
  created_at : Nat
  updated_at : Option Nat
  synced_at : Option Nat
  deleted_at : Option Nat
  ecount_success : Option Bool
  ecount_status : Option String
  ecount_message : Option String
deriving DecidableEq

/-- A request body (`req.body`) for the order-intake endpoint, restricted to
the fields the handlers read or that the claims concern. -/
structure Draft where
  _id : Option String
  store_name : Option String
  manager_name : Option String
  customer_name : Option String
  customer_phone : Option String
  address : Option String
  product_name : Option String
  option_name : Option String
  total_amount : Option NumLike
  shipping_cost : Option NumLike
  items : Option (List RawItem)
  is_synced : Option Bool
  is_deleted : Option Bool
deriving DecidableEq

/-- The synthetic single line item built from the legacy flat fields when the
draft carries no `items` array:
`[{ product_name, option_name, price: 0, quantity: 1 }]`. -/
def synthItem (d : Draft) : RawItem :=
  { product_no := none
    product_name := d.product_name
    option_name := d.option_name
    price := some (NumLike.num 0)
    quantity := some (NumLike.num 1) }

/-- Order intake of the first src/index.js revision (lines 240-277).  The
handler builds a fresh object (so the caller can never supply `_id`; the store
generates `gen`), but takes `is_synced: is_synced || false` from the body and
sets no `is_deleted` field at all. -/
def createOrderV1 (d : Draft) (now : Nat) (gen : String) : Order :=
  { _id := gen
    store_name := some (jsStrOr d.store_name "미지정")
    manager_name := some (jsStrOr d.manager_name "미지정")
    customer_name := d.customer_name
    customer_phone := d.customer_phone
    address := some (jsStrOr d.address "")
    product_name := d.product_name
    option_name := d.option_name
    total_amount := some (jsNumOr d.total_amount 0)
    shipping_cost := some (jsNumOr d.shipping_cost 0)
    items := d.items.getD [synthItem d]
    is_synced := some (d.is_synced.getD false)
    is_deleted := none
    created_at := now
    updated_at := none
    synced_at := none
    deleted_at := none
    ecount_success := none
    ecount_status := none
    ecount_message := none }

/-- The document stored by the second src/index.js revision (lines 511-523):
the request body is inserted verbatim after stamping `created_at` and
`is_synced = false`.  The body is not copied and `_id` is not deleted. -/
structure StoredDocV2 where
  _id : String
  body : Draft
  created_at : Nat
  is_synced : Bool
deriving DecidableEq

/-- Order intake of the second src/index.js revision (lines 511-523).
`insertOne(orderData)` uses a caller-supplied `_id` when the body has one and
only generates an id (`gen`) when it does not. -/
def createOrderV2 (d : Draft) (now : Nat) (gen : String) : StoredDocV2 :=
  { _id := match d._id with
      | some cid => cid
      | none => gen
    body := d
    created_at := now
    is_synced := false }

/-- Order intake of src/unnamed/part_001 (lines 241-271): spreads the body,
synthesizes `items`, coerces the amounts, forces `is_synced = false`, stamps
`created_at`, nulls `synced_at` and deletes `_id`.  `is_deleted` is not set,
so a caller-supplied value survives the spread. -/
def createOrderP1 (d : Draft) (now : Nat) (gen : String) : Order :=
  { _id := gen
    store_name := d.store_name
    manager_name := d.manager_name
    customer_name := d.customer_name
    customer_phone := d.customer_phone
    address := d.address
    product_name := d.product_name
    option_name := d.option_name
    total_amount := some (jsNumOr d.total_amount 0)
    shipping_cost := some (jsNumOr d.shipping_cost 0)
    items := d.items.getD [synthItem d]
    is_synced := some false
    is_deleted := d.is_deleted
    created_at := now
    updated_at := none
    synced_at := none
    deleted_at := none
    ecount_success := none
    ecount_status := none
    ecount_message := none }

/-- Order intake of the third src/index.js revision (lines 836-853), also
src/unnamed/part_002 lines 631-649 and src/unnamed/part_000 lines 1152-1169:
like part_001 but additionally forcing `is_deleted = false` (and, in the
ecount-aware revisions, nulling `ecount_success`), then deleting `_id`. -/
def createOrderV3 (d : Draft) (now : Nat) (gen : String) : Order :=
  { _id := gen
    store_name := d.store_name
    manager_name := d.manager_name
    customer_name := d.customer_name
    customer_phone := d.customer_phone
    address := d.address
    product_name := d.product_name
    option_name := d.option_name
    total_amount := some (jsNumOr d.total_amount 0)
    shipping_cost := some (jsNumOr d.shipping_cost 0)
    items := d.items.getD [synthItem d]
    is_synced := some false
    is_deleted := some false
    created_at := now
    updated_at := none
    synced_at := none
    deleted_at := none
    ecount_success := none
    ecount_status := none
    ecount_message := none }

/-- The in-memory access/refresh token pair (module-level variables
`accessToken` / `refreshToken`). -/
structure TokenMem where
  access : String
  refresh : String
deriving DecidableEq

/-- `saveTokensToDB` of the first src/index.js revision (lines 90-108): the
singleton token document is upserted; a write failure is caught inside the
function (logged only), leaving the store as it was and never throwing. -/
def saveTokensToDB (writeOk : Bool) (store : Option TokenMem) (a r : String) :
    Option TokenMem :=
  if writeOk then some { access := a, refresh := r } else store

/-- `refreshAccessToken` of the first src/index.js revision (lines 110-136).
Input: the outcome of the upstream OAuth exchange (new access/refresh pair on
success) and whether the token-store write would succeed.  Output: the
in-memory pair, the store contents, and the function result (`ok` with the
new access token, or `error` when the function throws). -/
def refreshAccessTokenV1 (oauth : Except Unit (String × String)) (writeOk : Bool)
    (mem : TokenMem) (store : Option TokenMem) :
    TokenMem × Option TokenMem × Except Unit String :=
  match oauth with
  | Except.error _ => (mem, store, Except.error ())
  | Except.ok (a, r) =>
    ({ access := a, refresh := r }, saveTokensToDB writeOk store a r, Except.ok a)

/-- `refreshAccessToken` of src/unnamed/part_000 (lines 135-169; part_001
lines 86-123 and the later revisions are the same shape): the store write is
inline inside the try block, so a write failure lands in the catch block and
is rethrown — after the in-memory pair was already reassigned. -/
def refreshAccessTokenP0 (oauth : Except Unit (String × String)) (writeOk : Bool)
    (mem : TokenMem) (store : Option TokenMem) :
    TokenMem × Option TokenMem × Except Unit String :=
  match oauth with
  | Except.error _ => (mem, store, Except.error ())
  | Except.ok (a, r) =>
    if writeOk then
      ({ access := a, refresh := r }, some { access := a, refresh := r }, Except.ok a)
    else
      ({ access := a, refresh := r }, store, Except.error ())

/-- One upstream HTTP response: a success payload or an error status. -/
inductive UpResp where
  | ok (payload : Nat)
  | err (status : Nat)
deriving DecidableEq

/-- `apiRequest` of the first src/index.js revision (lines 138-158).  Each
list element is one upstream attempt; on a 401 the handler refreshes the token
(assumed here to succeed) and calls itself again with no retry counter, so it
keeps retrying for as long as 401s keep coming.  Returns the number of
upstream attempts made together with the final outcome. -/
def apiRequestV1 : List UpResp → Nat × Except Nat Nat
  | [] => (0, Except.error 0)
  | UpResp.ok v :: _ => (1, Except.ok v)
  | UpResp.err s :: rest =>
    if s == 401 then
      let r := apiRequestV1 rest
      (r.1 + 1, r.2)
    else (1, Except.error s)

/-- `fetchFromCafe24` as defined inside the catalog routes of part_000,
part_001, part_002 and the third src/index.js revision: a `retry` flag bounds
the 401 retry to exactly one, so a second 401 is rethrown unchanged. -/
def fetchFromCafe24 : List UpResp → Bool → Nat × Except Nat Nat
  | [], _ => (0, Except.error 0)
  | UpResp.ok v :: _, _ => (1, Except.ok v)
  | UpResp.err s :: rest, retry =>
    if s == 401 && !retry then
      let r := fetchFromCafe24 rest true
      (r.1 + 1, r.2)
    else (1, Except.error s)

/-- MongoDB `updateOne`: apply `f` to the first element satisfying `p`,
leaving everything else unchanged. -/
def updateFirst {α : Type} (p : α → Bool) (f : α → α) : List α → List α
  | [] => []
  | x :: rest => if p x then f x :: rest else x :: updateFirst p f rest

/-- One entry of the `results` array posted to
POST /api/ordersOffData/sync-by-content (matchKey plus outcome). -/
structure SyncEntry where
  customer_name : String
  total_amount : NumLike
  status : String
  message : Option String
deriving DecidableEq

/-- Amount coercion of the sync-by-content route (src/index.js line 927):
a string match key has its commas stripped and is passed through `Number`;
NaN (modelled `none`) matches no document. -/
def contentAmount (a : NumLike) : Option Int :=
  match a with
  | NumLike.num n => some n
  | NumLike.str s =>
    (parseDigits (s.data.filter (fun c => !(c == ',')))).map (fun n => (n : Int))

/-- The `updateOne` filter of the sync-by-content route:
`{ is_synced: { $ne: true }, customer_name, total_amount }`. -/
def entryMatches (e : SyncEntry) (o : Order) : Bool :=
  (!(o.is_synced == some true)) &&
  (o.customer_name == some e.customer_name) &&
  (match contentAmount e.total_amount with
   | some a => o.total_amount == some a
   | none => false)

/-- The `$set` of the sync-by-content route: mark synced, stamp `synced_at`,
record `ecount_success = (status == 'SUCCESS')` and `ecount_message`. -/
def applySyncContent (e : SyncEntry) (now : Nat) (o : Order) : Order :=
  { o with
    is_synced := some true
    synced_at := some now
    ecount_success := some (e.status == "SUCCESS")
    ecount_message := some (jsStrOr e.message "") }

/-- POST /api/ordersOffData/sync-by-content (src/index.js lines 921-935,
src/unnamed/part_002 lines 715-729): one `updateOne` per outcome entry, in
order. -/
def syncByContent (entries : List SyncEntry) (now : Nat) (orders : List Order) :
    List Order :=
  entries.foldl
    (fun acc e => updateFirst (entryMatches e) (applySyncContent e now) acc)
    orders

/-- The per-order `$set` of POST /api/ordersOffData/sync (src/index.js lines
905-913): mark synced and record the ecount outcome. -/
def applySyncById (status : String) (message : Option String) (now : Nat)
    (o : Order) : Order :=
  { o with
    is_synced := some true
    synced_at := some now
    ecount_success := some (status == "SUCCESS")
    ecount_message := some (jsStrOr message "") }

/-- The `$set` of the soft-delete branch of DELETE /api/ordersOffData/:id
(src/index.js line 880). -/
def applySoftDelete (now : Nat) (o : Order) : Order :=
  { o with is_deleted := some true, deleted_at := some now }

/-- The `$set` of PUT /api/ordersOffData/restore/:id (src/index.js lines
891-894, src/unnamed/part_002 lines 686-689): un-delete, un-sync, and null
`synced_at`, `ecount_status` and `ecount_message`.  Note the route nulls the
key `ecount_status`, which no sync path ever writes, and leaves
`ecount_success` — the field the sync routes do write — untouched. -/
def applyRestore (o : Order) : Order :=
  { o with
    is_deleted := some false
    deleted_at := none
    is_synced := some false
    synced_at := none
    ecount_status := none
    ecount_message := none }

/-- PUT /api/ordersOffData/restore/:id at collection level: `updateOne` on the
`_id` filter. -/
def restoreOrder (id : String) (orders : List Order) : List Order :=
  updateFirst (fun o => o._id == id) applyRestore orders

/-- A request body for PUT /api/ordersOffData/:id, restricted to the fields
the part_001 whitelist accepts (the later revisions `$set` every body field;
the fields modelled here are the ones the claims concern). -/
structure OrderPatch where
  customer_name : Option String
  customer_phone : Option String
  manager_name : Option String
  shipping_cost : Option NumLike
  total_amount : Option NumLike
  product_name : Option String
  items : Option (List RawItem)
deriving DecidableEq

/-- The whitelisted `$set` of PUT /api/ordersOffData/:id in part_001 (lines
353-377): copy the allowed fields that are present, coerce the amounts with
`Number`, normalize `items`, stamp `updated_at`. -/
def applyPatchP1 (p : OrderPatch) (now : Nat) (o : Order) : Order :=
  { o with
    customer_name := match p.customer_name with
      | some v => some v
      | none => o.customer_name
    customer_phone := match p.customer_phone with
      | some v => some v
      | none => o.customer_phone
    manager_name := match p.manager_name with
      | some v => some v
      | none => o.manager_name
    shipping_cost := match p.shipping_cost with
      | some v => jsNumber v
      | none => o.shipping_cost
    total_amount := match p.total_amount with
      | some v => jsNumber v
      | none => o.total_amount
    product_name := match p.product_name with
      | some v => some v
      | none => o.product_name
    items := match p.items with
      | some l => l.map normItem
      | none => o.items
    updated_at := some now }

/-- The `$set` of PUT /api/ordersOffData/:id in the third src/index.js
revision (lines 861-866) and part_000 lines 1177-1184: spread the body,
delete `_id`, coerce the amounts, stamp `updated_at` (no whitelist, items
stored as sent). -/
def applyPatchV3 (p : OrderPatch) (now : Nat) (o : Order) : Order :=
  { o with
    customer_name := match p.customer_name with
      | some v => some v
      | none => o.customer_name
    customer_phone := match p.customer_phone with
      | some v => some v
      | none => o.customer_phone
    manager_name := match p.manager_name with
      | some v => some v
      | none => o.manager_name
    shipping_cost := match p.shipping_cost with
      | some v => jsNumber v
      | none => o.shipping_cost
    total_amount := match p.total_amount with
      | some v => jsNumber v
      | none => o.total_amount
    product_name := match p.product_name with
      | some v => some v
      | none => o.product_name
    items := match p.items with
      | some l => l
      | none => o.items
    updated_at := some now }

/-- Model of the MongoDB driver check `ObjectId.isValid(id)` for string
inputs: a 24-character hex string. -/
def isValidObjectId (s : String) : Bool :=
  s.data.length == 24 &&
    s.data.all (fun c => c.isDigit || "abcdefABCDEF".data.any (fun h => h == c))

/-- Outcome of the update route: 400 Invalid ID, 404 Not found, or 200 with
the updated collection. -/
inductive UpdateResult where
  | invalidId
  | notFound
  | updated (orders : List Order)
deriving DecidableEq

/-- PUT /api/ordersOffData/:id of part_001 (lines 346-391): reject a
malformed id with 400, apply the whitelisted patch via `updateOne`, and
report 404 when `matchedCount` is zero. -/
def updateOrderP1 (id : String) (p : OrderPatch) (now : Nat)
    (orders : List Order) : UpdateResult :=
  if !(isValidObjectId id) then UpdateResult.invalidId
  else if orders.any (fun o => o._id == id) then
    UpdateResult.updated (updateFirst (fun o => o._id == id) (applyPatchP1 p now) orders)
  else UpdateResult.notFound

/-- PUT /api/ordersOffData/:id of the third src/index.js revision (lines
856-869) and part_000 lines 1172-1187: reject a malformed id with 400, run
`updateOne`, and answer `{ success: true }` without inspecting
`matchedCount`. -/
def updateOrderV3 (id : String) (p : OrderPatch) (now : Nat)
    (orders : List Order) : UpdateResult :=
  if !(isValidObjectId id) then UpdateResult.invalidId
  else
    UpdateResult.updated (updateFirst (fun o => o._id == id) (applyPatchV3 p now) orders)

/-- Query parameters of GET /api/ordersOffData.  `none` models an absent
parameter. -/
structure OrderQuery where
  store_name : Option String
  startDate : Option Nat
  endDate : Option Nat
  keyword : Option String
  view : Option String

/-- Case-insensitive substring test, modelling the `$regex` with option `i`
used by the keyword filter. -/
def strContainsCI (h n : String) : Bool :=
  let hs := (h.toLower).data
  let ns := (n.toLower).data
  (List.range (hs.length + 1)).any (fun i => List.isPrefixOf ns (hs.drop i))

/-- The view selector of the full listing (src/index.js lines 810-818,
part_000 lines 1122-1133): trash matches `is_deleted == true`, completed
matches `is_deleted != true` and `is_synced == true`, everything else (the
active default) matches `is_deleted != true` and `is_synced != true`. -/
def matchesView (v : Option String) (o : Order) : Bool :=
  if v = some "trash" then o.is_deleted == some true
  else if v = some "completed" then
    (!(o.is_deleted == some true)) && (o.is_synced == some true)
  else
    (!(o.is_deleted == some true)) && (!(o.is_synced == some true))

/-- The store filter: skipped when the parameter is absent, empty, the
sentinel string for all stores, or the literal string "null". -/
def matchesStore (sn : Option String) (o : Order) : Bool :=
  match sn with
  | none => true
  | some s =>
    if s = "" then true
    else if s = "전체" then true
    else if s = "null" then true
    else o.store_name == some s

/-- The created-at range filter: applied only when both bounds are present
(`startDate && endDate`), inclusive on both ends. -/
def matchesDate (sd ed : Option Nat) (o : Order) : Bool :=
  match sd, ed with
  | some s, some e => decide (s ≤ o.created_at) && decide (o.created_at ≤ e)
  | _, _ => true

/-- The keyword filter: case-insensitive substring match on customer name,
customer phone or product name (`$or` of three `$regex`); a document missing
a field fails that disjunct. -/
def matchesKeyword (kw : Option String) (o : Order) : Bool :=
  match kw with
  | none => true
  | some k =>
    if k = "" then true
    else
      (match o.customer_name with
       | some s => strContainsCI s k
       | none => false) ||
      (match o.customer_phone with
       | some s => strContainsCI s k
       | none => false) ||
      (match o.product_name with
       | some s => strContainsCI s k
       | none => false)

/-- The conjunctive query document built by the full listing route. -/
def orderMatches (q : OrderQuery) (o : Order) : Bool :=
  matchesView q.view o && matchesStore q.store_name o &&
    matchesDate q.startDate q.endDate o && matchesKeyword q.keyword o

/-- `.sort(\x7b created_at: -1 \x7d)`: newest creation first. -/
def sortNewestFirst (l : List Order) : List Order :=
  l.insertionSort (fun a b => b.created_at ≤ a.created_at)

/-- GET /api/ordersOffData of the third src/index.js revision (lines 805-834)
and part_000 lines 1116-1149: filter then sort. -/
def listOrders (q : OrderQuery) (orders : List Order) : List Order :=
  sortNewestFirst (orders.filter (orderMatches q))

/-- The trash view with every optional filter absent. -/
def trashOnlyQuery : OrderQuery :=
  { store_name := none, startDate := none, endDate := none, keyword := none
    view := some "trash" }

/-- The store filter of the reduced listing in part_000 (line 851): no
"null" sentinel. -/
def matchesStoreSimple (sn : Option String) (o : Order) : Bool :=
  match sn with
  | none => true
  | some s =>
    if s = "" then true
    else if s = "전체" then true
    else o.store_name == some s

/-- The reduced GET /api/ordersOffData of part_000 (second segment, lines
847-855): `query = \x7b is_deleted: view === 'trash' \x7d` plus the store
filter — the active branch constrains only `is_deleted` and never looks at
`is_synced`. -/
def listOrdersSimple (sn : Option String) (view : Option String)
    (orders : List Order) : List Order :=
  sortNewestFirst (orders.filter (fun o =>
    (o.is_deleted == some (view == some "trash")) && matchesStoreSimple sn o))

/-- A reference-data entry as posted to the replace routes (may carry a stray
`_id`, which the handler strips). -/
structure RefEntryIn where
  _id : Option String
  code : String
  name : String
deriving DecidableEq

/-- A reference-data entry as stored after cleaning. -/
structure RefEntryStored where
  code : String
  name : String
  updated_at : Nat
deriving DecidableEq

/-- The per-entry cleaning of the replace routes: drop `_id`, stamp
`updated_at`. -/
def cleanRef (now : Nat) (e : RefEntryIn) : RefEntryStored :=
  { code := e.code, name := e.name, updated_at := now }

/-- PUT /api/ecount-stores, /api/static-managers and /api/ecount-warehouses
(src/index.js lines 951-975, part_000 lines 505-570): the three routes share
this body — `deleteMany(\x7b\x7d)` wipes the collection, then `insertMany` of
the cleaned payload runs only when the payload is non-empty.  The prior
contents (`old`) are discarded unconditionally. -/
def replaceAll (now : Nat) (old : List RefEntryStored) (data : List RefEntryIn) :
    List RefEntryStored :=
  let cleanData := data.map (cleanRef now)
  if cleanData.length > 0 then cleanData else []

/-! Concrete fixtures used by the counterexamples and witnesses. -/

/-- A baseline order document. -/
def baseOrder : Order :=
  { _id := "64f0000000000000000000a0"
    store_name := some "storeA"
    manager_name := some "mgr"
    customer_name := some "Kim"
    customer_phone := some "01012345678"
    address := some "Seoul"
    product_name := some "Yogibo Max"
    option_name := some "Red"
    total_amount := some 15000
    shipping_cost := some 0
    items := []
    is_synced := none
    is_deleted := none
    created_at := 1
    updated_at := none
    synced_at := none
    deleted_at := none
    ecount_success := none
    ecount_status := none
    ecount_message := none }

/-- An empty draft (all body fields absent). -/
def draft0 : Draft :=
  { _id := none, store_name := none, manager_name := none, customer_name := none
    customer_phone := none, address := none, product_name := none
    option_name := none, total_amount := none, shipping_cost := none
    items := none, is_synced := none, is_deleted := none }

/-- An empty patch (no body fields). -/
def patch0 : OrderPatch :=
  { customer_name := none, customer_phone := none, manager_name := none
    shipping_cost := none, total_amount := none, product_name := none
    items := none }

/-- A well-formed ObjectId string. -/
def oid24 : String := "0123456789abcdef01234567"

/-- A draft whose caller set `is_synced: true`. -/
def draft4 : Draft := { draft0 with customer_name := some "Kim", is_synced := some true }

/-- A draft carrying a caller-chosen `_id`. -/
def draft8 : Draft := { draft0 with _id := some "aaaaaaaaaaaaaaaaaaaaaaaa" }

/-- The C3 scenario: an order that was synced (ecount outcome recorded), then
trashed. -/
def o3synced : Order := applySyncById "SUCCESS" (some "ok") 10 baseOrder

/-- The C3 scenario after the soft delete. -/
def o3trashed : Order := applySoftDelete 20 o3synced

/-- The C3 scenario after the restore. -/
def o3restored : Order := applyRestore o3trashed

/-- A non-deleted, already-synced order (visible only in the completed view
of the full listing). -/
def o5syncedActive : Order :=
  { baseOrder with _id := "64f0000000000000000000a5"
                   is_deleted := some false, is_synced := some true }

/-- A sync-by-content outcome entry with a comma-grouped string amount. -/
def e6 : SyncEntry :=
  { customer_name := "Kim", total_amount := NumLike.str "15,000"
    status := "SUCCESS", message := some "ok" }

/-- First of two unsynced orders sharing the (customer_name, total_amount)
match tuple. -/
def o6a : Order :=
  { baseOrder with _id := "64f0000000000000000000b1", is_synced := some false }

/-- Second of two unsynced orders sharing the match tuple. -/
def o6b : Order :=
  { baseOrder with _id := "64f0000000000000000000b2", is_synced := none }

/-- An order stored under `oid24`, for the update-route witness. -/
def oWithOid : Order := { baseOrder with _id := oid24 }

/-- A sync-by-content entry whose match tuple agrees with `o10synced` on
name and amount. -/
def e10 : SyncEntry :=
  { customer_name := "Lee", total_amount := NumLike.num 5000
    status := "SUCCESS", message := none }

/-- An order already marked synced, sharing `e10`'s match tuple. -/
def o10synced : Order :=
  { baseOrder with _id := "64f0000000000000000000c1"
                   customer_name := some "Lee", total_amount := some 5000
                   is_synced := some true }

/-- An active, unsynced order for the listing witness. -/
def oAct : Order :=
  { baseOrder with _id := "64f0000000000000000000d1"
                   is_deleted := some false, is_synced := some false
                   created_at := 2 }

/-- A trashed order for the listing witness. -/
def oTr : Order :=
  { baseOrder with _id := "64f0000000000000000000d2"
                   is_deleted := some true, is_synced := some true
                   created_at := 3 }

/-- The active view with every optional filter absent. -/
def activeQuery : OrderQuery :=
  { store_name := none, startDate := none, endDate := none, keyword := none
    view := some "active" }

/-! Helper lemmas. -/

/-- `updateFirst` leaves a prefix of non-matching elements untouched and
rewrites the first match, leaving the tail unchanged. -/
theorem updateFirst_append_first {α : Type} (p : α → Bool) (f : α → α)
    (l1 : List α) (o1 : α) (l2 : List α)
    (h : ∀ x ∈ l1, p x = false) (hp : p o1 = true) :
    updateFirst p f (l1 ++ o1 :: l2) = l1 ++ f o1 :: l2 := by
  induction l1 with
  | nil => simp [updateFirst, hp]
  | cons a t ih =>
    have ha : p a = false := h a (by simp)
    have ih2 := ih (fun x hx => h x (by simp [hx]))
    simp [updateFirst, ha, ih2]

/-- `updateFirst` leaves every position whose element fails the predicate
unchanged. -/
theorem updateFirst_getElem_of_false {α : Type} (p : α → Bool) (f : α → α) :
    ∀ (l : List α) (i : Nat) (x : α), l[i]? = some x → p x = false →
      (updateFirst p f l)[i]? = some x := by
  intro l
  induction l with
  | nil =>
    intro i x h _
    simp at h
  | cons a t ih =>
    intro i x h hx
    cases i with
    | zero =>
      simp only [List.getElem?_cons_zero, Option.some.injEq] at h
      subst h
      simp [updateFirst, hx]
    | succ n =>
      simp only [List.getElem?_cons_succ] at h
      by_cases ha : p a = true
      · simp [updateFirst, ha, h]
      · have ha2 : p a = false := by simpa using ha
        simp [updateFirst, ha2, ih n x h hx]

/-- An already-synced order never satisfies a sync-by-content filter. -/
theorem entryMatches_eq_false_of_synced (e : SyncEntry) (o : Order)
    (h : o.is_synced = some true) : entryMatches e o = false := by
  simp [entryMatches, h]

/-- Membership in the full listing result is membership in the store plus the
query filter (sorting permutes). -/
theorem mem_listOrders {q : OrderQuery} {orders : List Order} {o : Order} :
    o ∈ listOrders q orders ↔ (o ∈ orders ∧ orderMatches q o = true) := by
  unfold listOrders sortNewestFirst
  rw [List.Perm.mem_iff (List.perm_insertionSort _ _), List.mem_filter]

/-- The bare trash query reduces to the `is_deleted == true` test. -/
theorem orderMatches_trashOnly (o : Order) :
    orderMatches trashOnlyQuery o = (o.is_deleted == some true) := by
  simp [orderMatches, trashOnlyQuery, matchesView, matchesStore, matchesDate,
    matchesKeyword]

/-! Claim theorems. -/

/-- C1: the claim fails on the first src/index.js revision.  With upstream
responses 401, 401, 200 and token refreshes succeeding, `apiRequest`
(src/index.js lines 138-158) performs a third upstream attempt and returns
the 200 payload instead of terminating with a terminal error after the second
401: its recursive retry carries no attempt bound. -/
theorem c1_apiRequestV1_makes_third_attempt :
    apiRequestV1 [UpResp.err 401, UpResp.err 401, UpResp.ok 7] =
      (3, Except.ok 7) := rfl

/-- The `retry`-flag fetchers of the later revisions do behave as the claim
states: on the same response script they stop after the second attempt with
the 401 surfaced as the terminal error. -/
theorem fetchFromCafe24_stops_after_one_retry :
    fetchFromCafe24 [UpResp.err 401, UpResp.err 401, UpResp.ok 7] false =
      (2, Except.error 401) := rfl

/-- C2 counterexample: in the part_000 refresher the OAuth exchange succeeds,
the token-store write fails, and the refresh then fails from the caller's
perspective (the write failure is rethrown), refuting the claim for this
variant — even though the in-memory pair was already updated. -/
theorem c2_counterexample_store_write_failure_propagates :
    refreshAccessTokenP0 (Except.ok ("a2", "r2")) false
        { access := "a1", refresh := "r1" }
        (some { access := "a1", refresh := "r1" }) =
      ({ access := "a2", refresh := "r2" },
        some { access := "a1", refresh := "r1" }, Except.error ()) := rfl

/-- C2 amended: in the first src/index.js revision, where the store write goes
through `saveTokensToDB`, a refresh whose OAuth exchange succeeds always
succeeds for the caller: the in-memory pair is updated and the new access
token returned whatever the store write does, and a failed write leaves the
store unchanged (downgraded to a warning). -/
theorem c2_refreshV1_store_failure_nonfatal (a r : String) (writeOk : Bool)
    (mem : TokenMem) (store : Option TokenMem) :
    (refreshAccessTokenV1 (Except.ok (a, r)) writeOk mem store).1 =
        { access := a, refresh := r } ∧
    (refreshAccessTokenV1 (Except.ok (a, r)) writeOk mem store).2.2 =
        Except.ok a ∧
    (refreshAccessTokenV1 (Except.ok (a, r)) false mem store).2.1 = store :=
  ⟨rfl, rfl, rfl⟩

/-- C3: evaluation at the failing input.  After sync, soft delete and restore,
the restore has reset `is_deleted`, `is_synced`, `synced_at` and
`ecount_message`, but `ecount_success` — the external sync status the sync
routes actually write — still holds the pre-restore outcome, because the
route nulls the never-written key `ecount_status` instead. -/
theorem c3_restore_leaves_ecount_success_set :
    o3restored.is_deleted = some false ∧
    o3restored.is_synced = some false ∧
    o3restored.synced_at = none ∧
    o3restored.ecount_message = none ∧
    o3restored.ecount_success = some true ∧
    restoreOrder baseOrder._id [o3trashed] = [o3restored] :=
  ⟨rfl, rfl, rfl, rfl, rfl, rfl⟩

/-- C4 counterexample: the first src/index.js intake (lines 240-277) stores
`is_synced: is_synced || false`, so a draft carrying `is_synced: true` is
stored already synced, and no `is_deleted` field is written at all. -/
theorem c4_counterexample_caller_is_synced_kept :
    (createOrderV1 draft4 0 "64f0000000000000000000e1").is_synced = some true ∧
    (createOrderV1 draft4 0 "64f0000000000000000000e1").is_deleted = none :=
  ⟨rfl, rfl⟩

/-- C4 amended: the trash-aware intakes (third src/index.js revision lines
836-853, part_000 lines 1152-1169, part_002 lines 631-649) force
`is_synced = false` and `is_deleted = false` on every stored order, whatever
the caller supplied for those fields. -/
theorem c4_intakeV3_forces_unsynced_undeleted (d : Draft) (now : Nat)
    (gen : String) :
    (createOrderV3 d now gen).is_synced = some false ∧
    (createOrderV3 d now gen).is_deleted = some false :=
  ⟨rfl, rfl⟩

/-- C5 counterexample: the reduced listing of part_000 (lines 847-855) filters
the active view only on `is_deleted == false`, so a non-deleted order that is
already synced is returned by `view=active`, refuting the claim for this
variant. -/
theorem c5_counterexample_active_view_returns_synced :
    listOrdersSimple none (some "active") [o5syncedActive] = [o5syncedActive] ∧
    o5syncedActive.is_synced = some true :=
  ⟨by decide, rfl⟩

/-- C5 amended: for the view-aware listing (third src/index.js revision lines
805-834, part_000 lines 1116-1149) the claim holds: whatever the other
filters, a view other than trash and completed never returns an order with
`is_deleted = true` or `is_synced = true`, and the bare trash view returns
exactly the stored orders with `is_deleted = true`, independent of
`is_synced`. -/
theorem c5_view_listing_active_safe_trash_exact (q : OrderQuery)
    (orders : List Order) :
    (q.view ≠ some "trash" → q.view ≠ some "completed" →
      ∀ o ∈ listOrders q orders,
        o.is_deleted ≠ some true ∧ o.is_synced ≠ some true) ∧
    (∀ o : Order, o ∈ listOrders trashOnlyQuery orders ↔
      (o ∈ orders ∧ o.is_deleted = some true)) := by
  constructor
  · intro h1 h2 o ho
    have hm : orderMatches q o = true := (mem_listOrders.mp ho).2
    have hv : matchesView q.view o = true := by
      simp only [orderMatches, Bool.and_eq_true] at hm
      exact hm.1.1.1
    simp only [matchesView] at hv
    rw [if_neg h1, if_neg h2] at hv
    simp at hv
    exact hv
  · intro o
    rw [mem_listOrders, orderMatches_trashOnly]
    simp

/-- C5 witness: the amended listing theorem applied at a concrete query and
store. -/
theorem c5_view_listing_witness :
    (oAct.is_deleted ≠ some true ∧ oAct.is_synced ≠ some true) ∧
    (oTr ∈ listOrders trashOnlyQuery [oAct, oTr] ↔
      (oTr ∈ [oAct, oTr] ∧ oTr.is_deleted = some true)) :=
  ⟨(c5_view_listing_active_safe_trash_exact activeQuery [oAct]).1
      (by decide) (by decide) oAct (by decide),
    (c5_view_listing_active_safe_trash_exact trashOnlyQuery [oAct, oTr]).2 oTr⟩

/-- C6 counterexample: `o6a` and `o6b` are both unsynced and both match
`e6`'s (customer_name, total_amount) tuple, yet after the single outcome
entry is applied, not every matching order is synced: the `updateOne` stopped
at the first match and `o6b` is returned unchanged. -/
theorem c6_counterexample_second_match_left_unsynced :
    entryMatches e6 o6a = true ∧ entryMatches e6 o6b = true ∧
    syncByContent [e6] 5 [o6a, o6b] = [applySyncContent e6 5 o6a, o6b] ∧
    o6b.is_synced ≠ some true :=
  ⟨by decide, by decide, by decide, by decide⟩

/-- C6 amended: a single content-based outcome entry updates exactly the
first matching not-yet-synced order; every order after it — including further
orders sharing the same (customer_name, total_amount) tuple — is left
unchanged by that entry. -/
theorem c6_syncByContent_updates_first_match_only (e : SyncEntry) (now : Nat)
    (l1 l2 : List Order) (o1 : Order)
    (h : ∀ x ∈ l1, entryMatches e x = false) (hp : entryMatches e o1 = true) :
    syncByContent [e] now (l1 ++ o1 :: l2) =
      l1 ++ applySyncContent e now o1 :: l2 := by
  show updateFirst (entryMatches e) (applySyncContent e now) (l1 ++ o1 :: l2) = _
  exact updateFirst_append_first _ _ _ _ _ h hp

/-- C6 witness: the amended theorem applied to the two concrete tuple-sharing
orders. -/
theorem c6_syncByContent_first_match_witness :
    syncByContent [e6] 5 ([] ++ o6a :: [o6b]) =
      [] ++ applySyncContent e6 5 o6a :: [o6b] :=
  c6_syncByContent_updates_first_match_only e6 5 [] [o6b] o6a
    (by decide) (by decide)

/-- C7 counterexample: the third src/index.js update route (lines 856-869;
same in part_000 lines 1172-1187) checks the id shape but never
`matchedCount`: on an empty store, a well-formed id yields success with
nothing updated instead of the NotFound the claim requires. -/
theorem c7_counterexample_missing_id_reports_success :
    isValidObjectId oid24 = true ∧
    updateOrderV3 oid24 patch0 7 [] = UpdateResult.updated [] :=
  ⟨by decide, by decide⟩

/-- C7 amended: the part_001 update route (lines 346-391) satisfies the full
contract: InvalidId on a malformed id, NotFound when no record matches a
well-formed id, and an applied whitelisted patch with success exactly when a
record matches. -/
theorem c7_updateP1_contract (id : String) (p : OrderPatch) (now : Nat)
    (orders : List Order) :
    (isValidObjectId id = false →
      updateOrderP1 id p now orders = UpdateResult.invalidId) ∧
    (isValidObjectId id = true → orders.any (fun o => o._id == id) = false →
      updateOrderP1 id p now orders = UpdateResult.notFound) ∧
    (isValidObjectId id = true → orders.any (fun o => o._id == id) = true →
      updateOrderP1 id p now orders =
        UpdateResult.updated
          (updateFirst (fun o => o._id == id) (applyPatchP1 p now) orders)) := by
  refine ⟨?_, ?_, ?_⟩
  · intro h1
    simp [updateOrderP1, h1]
  · intro h1 h2
    simp [updateOrderP1, h1, h2]
  · intro h1 h2
    simp [updateOrderP1, h1, h2]

/-- C7 witness: the contract applied at a malformed id, a missing id and a
matching id. -/
theorem c7_updateP1_contract_witness :
    updateOrderP1 "zzz" patch0 7 [] = UpdateResult.invalidId ∧
    updateOrderP1 oid24 patch0 7 [] = UpdateResult.notFound ∧
    updateOrderP1 oid24 patch0 7 [oWithOid] =
      UpdateResult.updated
        (updateFirst (fun o => o._id == oid24) (applyPatchP1 patch0 7)
          [oWithOid]) :=
  ⟨(c7_updateP1_contract "zzz" patch0 7 []).1 (by decide),
    (c7_updateP1_contract oid24 patch0 7 []).2.1 (by decide) (by decide),
    (c7_updateP1_contract oid24 patch0 7 [oWithOid]).2.2 (by decide) (by decide)⟩

/-- C8 counterexample: the second src/index.js intake (lines 511-523) inserts
the request body as-is, so the caller-supplied `_id` becomes the stored
identity instead of the store-generated one. -/
theorem c8_counterexample_caller_id_stored :
    (createOrderV2 draft8 3 "64f0000000000000000000f1")._id =
        "aaaaaaaaaaaaaaaaaaaaaaaa" ∧
    (createOrderV2 draft8 3 "64f0000000000000000000f1")._id ≠
        "64f0000000000000000000f1" :=
  ⟨rfl, by decide⟩

/-- C8 amended: every other intake (first src/index.js revision, part_001,
and the trash-aware revisions) builds a fresh document or deletes `_id`
before insertion, so the stored identity is always the store-generated
one. -/
theorem c8_other_intakes_generate_id (d : Draft) (now : Nat) (gen : String) :
    (createOrderV1 d now gen)._id = gen ∧
    (createOrderP1 d now gen)._id = gen ∧
    (createOrderV3 d now gen)._id = gen :=
  ⟨rfl, rfl, rfl⟩

/-- C9: the reference-data replace routes (stores, managers, warehouses share
this body) are destructive-then-insert: the result never depends on the prior
contents, and an empty payload leaves the collection empty. -/
theorem c9_replaceAll_empty_wipes (now : Nat) (old old2 : List RefEntryStored)
    (data : List RefEntryIn) :
    replaceAll now old [] = [] ∧
    replaceAll now old data = replaceAll now old2 data :=
  ⟨rfl, rfl⟩

/-- C10: an order whose `is_synced` is already true is never selected by the
content match — it is returned unchanged at its position, whatever the batch
of outcome entries. -/
theorem c10_synced_orders_untouched (entries : List SyncEntry) (now : Nat) :
    ∀ (orders : List Order) (i : Nat) (o : Order),
      orders[i]? = some o → o.is_synced = some true →
      (syncByContent entries now orders)[i]? = some o := by
  induction entries with
  | nil =>
    intro orders i o h _
    exact h
  | cons e es ih =>
    intro orders i o h hs
    have hstep :
        (updateFirst (entryMatches e) (applySyncContent e now) orders)[i]? =
          some o :=
      updateFirst_getElem_of_false _ _ orders i o h
        (entryMatches_eq_false_of_synced e o hs)
    exact ih _ i o hstep hs

/-- C10 witness: an already-synced order sharing the entry's match tuple is
untouched by the batch. -/
theorem c10_synced_orders_untouched_witness :
    (syncByContent [e10] 9 [o10synced])[0]? = some o10synced :=
  c10_synced_orders_untouched [e10] 9 [o10synced] 0 o10synced rfl rfl
